import Mathlib

/-!
Verification development for the Dental Lead Qualifier service
(`lead_qualifier_full.py`): a Flask webhook that parses free-text Slack
lead notifications, de-duplicates by email over a 5-minute window,
checks/updates a HubSpot contact, asks an LLM oracle to qualify the
lead, and acknowledges the outcome on Slack.

The embedding below follows the Python source closely:
* a small backtracking regex engine reproduces the semantics of
  `re.search` for the exact patterns used by `extract_lead_data`
  (leftmost match, ordered alternation, greedy/lazy quantifiers,
  character classes, capture groups, word boundaries, IGNORECASE);
* `extract_lead_data` is translated field by field;
* the `/webhook` route handler `slack_webhook` is embedded as a pure
  step function over the process state (statistics counters and the
  processed-emails ledger), taking the outcomes of the external calls
  (HubSpot lookup, oracle qualification) as inputs and returning the
  HTTP response together with the trace of external calls attempted.
-/

namespace LeadQualifier

/-! ## A small backtracking regex engine

`RE` is the abstract syntax of the regex fragment used by the source.
`mtch` is a continuation-passing backtracking matcher; alternatives are
tried in syntactic order and greedy/lazy repetition respects Python
`re` priority, so the first result found agrees with `re.search` on
the patterns of the source.  Recursion is fuel-bounded; the fuel only
needs to dominate pattern nesting depth plus iteration count, and
`reSearch` supplies a fuel that is linear in the input length. -/

/-- Regex abstract syntax: empty word, single-character class (as a
boolean predicate), concatenation, ordered alternation, capture group,
word boundary, and counted repetition (`rep lo hi greedy`; `hi = none`
means unbounded). -/
inductive RE where
  | eps : RE
  | cls (p : Char → Bool) : RE
  | cat (a b : RE) : RE
  | alt (a b : RE) : RE
  | group (i : Nat) (a : RE) : RE
  | wordB : RE
  | rep (lo : Nat) (hi : Option Nat) (greedy : Bool) (a : RE) : RE

/-- Captured groups: group index paired with the captured substring
(as a character list).  Later captures are prepended, and lookup takes
the first hit, so the last successful capture of a group wins, as in
Python. -/
abbrev Caps := List (Nat × List Char)

/-- Word character, Python `\w` restricted to ASCII (the source only
feeds it ASCII text around `\b`). -/
def isWordChar (c : Char) : Bool := c.isAlphanum || c == '_'

/-- Whether the position before `s` (with preceding character `prev`)
is a word boundary. -/
def atWordBoundary (prev : Option Char) (s : List Char) : Bool :=
  let a := match prev with | none => false | some c => isWordChar c
  let b := match s with | [] => false | c :: _ => isWordChar c
  a != b

/-- Decrement an optional repetition bound. -/
def predBound (hi : Option Nat) : Option Nat :=
  match hi with
  | none => none
  | some n => some (n - 1)

/-- Backtracking matcher.  `mtch fuel re prev s caps k` tries to match
`re` against a prefix of `s` (where `prev` is the character preceding
`s`, for word boundaries), extending captures `caps`, and calls the
continuation `k` on the rest; alternatives are explored in priority
order, the first success wins.  Returns the captures of the overall
first successful match. -/
def mtch : Nat → RE → Option Char → List Char → Caps →
    (Option Char → List Char → Caps → Option Caps) → Option Caps
  | 0, _, _, _, _, _ => none
  | fuel + 1, re, prev, s, caps, k =>
    match re with
    | .eps => k prev s caps
    | .cls p =>
      match s with
      | [] => none
      | c :: rest => if p c then k (some c) rest caps else none
    | .cat a b =>
      mtch fuel a prev s caps (fun p' s' c' => mtch fuel b p' s' c' k)
    | .alt a b =>
      (mtch fuel a prev s caps k).orElse (fun _ => mtch fuel b prev s caps k)
    | .group i a =>
      mtch fuel a prev s caps (fun p' s' c' =>
        k p' s' ((i, s.take (s.length - s'.length)) :: c'))
    | .wordB =>
      if atWordBoundary prev s then k prev s caps else none
    | .rep lo hi greedy a =>
      match lo with
      | m + 1 =>
        mtch fuel a prev s caps (fun p' s' c' =>
          mtch fuel (.rep m (predBound hi) greedy a) p' s' c' k)
      | 0 =>
        match hi with
        | some 0 => k prev s caps
        | _ =>
          if greedy then
            (mtch fuel a prev s caps (fun p' s' c' =>
              if s'.length < s.length then
                mtch fuel (.rep 0 (predBound hi) greedy a) p' s' c' k
              else none)).orElse (fun _ => k prev s caps)
          else
            (k prev s caps).orElse (fun _ =>
              mtch fuel a prev s caps (fun p' s' c' =>
                if s'.length < s.length then
                  mtch fuel (.rep 0 (predBound hi) greedy a) p' s' c' k
                else none))

/-- Fuel that dominates any match attempt of the source's patterns on
input `s`: nesting depth of the patterns is below 60 and every
repetition step consumes fuel at most once per consumed character. -/
def searchFuel (s : List Char) : Nat := s.length + 60

/-- Try to match at the current position, else advance one character:
the semantics of Python `re.search` (leftmost match wins; at a given
position, backtracking priority order).  The whole match is recorded
as capture group `0`. -/
def searchAux (re : RE) (m : Nat) : Nat → Option Char → List Char → Option Caps
  | 0, _, _ => none
  | fuel + 1, prev, s =>
    match mtch m (.group 0 re) prev s [] (fun _ _ c => some c) with
    | some caps => some caps
    | none =>
      match s with
      | [] => none
      | c :: rest => searchAux re m fuel (some c) rest

/-- Python `re.search pattern message`: captures of the leftmost match,
or `none`. -/
def reSearch (re : RE) (s : String) : Option Caps :=
  searchAux re (searchFuel s.data) (s.data.length + 1) none s.data

/-- Python `match.group i` (for a group that participated in the
match): the last captured content of group `i`. -/
def capGet (caps : Caps) (i : Nat) : Option String :=
  (caps.find? (fun p => p.1 == i)).map (fun p => String.mk p.2)

/-! ### Smart constructors for the patterns of the source -/

/-- A literal character. -/
def rchar (c : Char) : RE := .cls (fun d => d == c)

/-- A literal character under `re.IGNORECASE` (ASCII case folding). -/
def rcharI (c : Char) : RE := .cls (fun d => d.toLower == c.toLower)

/-- A literal string. -/
def rstr (s : String) : RE := s.data.foldr (fun c r => .cat (rchar c) r) .eps

/-- A literal string under `re.IGNORECASE`. -/
def rstrI (s : String) : RE := s.data.foldr (fun c r => .cat (rcharI c) r) .eps

/-- Concatenation of a list of regexes. -/
def rcat (l : List RE) : RE := l.foldr .cat .eps

/-- Greedy `+`. -/
def rplus (a : RE) : RE := .rep 1 none true a

/-- Lazy `+?`. -/
def rplusLazy (a : RE) : RE := .rep 1 none false a

/-- Greedy `*`. -/
def rstar (a : RE) : RE := .rep 0 none true a

/-- Greedy `?`. -/
def ropt (a : RE) : RE := .rep 0 (some 1) true a

/-- Python `\s` (ASCII): space, tab, newline, carriage return,
vertical tab, form feed. -/
def wsChar (c : Char) : Bool :=
  c == ' ' || c == '\t' || c == '\n' || c == '\r' || c == '\x0b' || c == '\x0c'

/-- Python `.` (no DOTALL): any character except newline. -/
def dotChar : RE := .cls (fun c => c != '\n')

/-! ### The regex patterns of `extract_lead_data` -/

/-- Character class `[a-zA-Z0-9._-]` of the email pattern. -/
def emailLocalChar (c : Char) : Bool :=
  c.isAlpha || c.isDigit || c == '.' || c == '_' || c == '-'

/-- Character class `[a-zA-Z0-9_-]` of the email pattern's last part. -/
def emailTldChar (c : Char) : Bool :=
  c.isAlpha || c.isDigit || c == '_' || c == '-'

/-- Pattern `([a-zA-Z0-9._-]+@[a-zA-Z0-9._-]+\.[a-zA-Z0-9_-]+)`
(the IGNORECASE flag of the source is irrelevant: every class is
already case-symmetric). -/
def emailRe : RE :=
  .group 1 (rcat [rplus (.cls emailLocalChar), rchar '@',
    rplus (.cls emailLocalChar), rchar '.', rplus (.cls emailTldChar)])

/-- Pattern `<tel:([^|]+)\|([^>]+)>` for Slack tel links. -/
def slackTelRe : RE :=
  rcat [rstr "<tel:", .group 1 (rplus (.cls (fun c => c != '|'))),
    rchar '|', .group 2 (rplus (.cls (fun c => c != '>'))), rchar '>']

/-- Character class `[+\d\s-]` of the labelled phone patterns. -/
def phoneChar (c : Char) : Bool := c == '+' || c.isDigit || wsChar c || c == '-'

/-- Labelled phone pattern `LABEL\s*:\s*([+\d\s-]+)` (IGNORECASE). -/
def labelPhoneRe (label : String) : RE :=
  rcat [rstrI label, rstar (.cls wsChar), rchar ':', rstar (.cls wsChar),
    .group 1 (rplus (.cls phoneChar))]

/-- Character class `[\d\s-]` of the French phone pattern. -/
def frenchDigitChar (c : Char) : Bool := c.isDigit || wsChar c || c == '-'

/-- Pattern `\b(?:0|\+33)[\d\s-]{8,}\b`. -/
def frenchPhoneRe : RE :=
  rcat [.wordB, .alt (rchar '0') (rstr "+33"),
    .rep 8 none true (.cls frenchDigitChar), .wordB]

/-- Character class `[-.\s]` of the generic phone pattern. -/
def sepChar (c : Char) : Bool := c == '-' || c == '.' || wsChar c

/-- Pattern `\b\d{3}[-.\s]?\d{3}[-.\s]?\d{4}\b`. -/
def genericPhoneRe : RE :=
  rcat [.wordB, .rep 3 (some 3) true (.cls Char.isDigit), ropt (.cls sepChar),
    .rep 3 (some 3) true (.cls Char.isDigit), ropt (.cls sepChar),
    .rep 4 (some 4) true (.cls Char.isDigit), .wordB]

/-- The source's `phone_patterns` list, in order, each paired with the
flag "the pattern string contains `:`" that selects `group(1)` over
`group(0)`.  Note the French pattern carries `true`: its pattern
string contains a colon inside the non-capturing group marker `(?:`,
even though the pattern has no capture group at all — so the source
asks it for `group(1)`, which raises `IndexError` (see
`phoneLoopE`). -/
def phonePatterns : List (RE × Bool) :=
  [(labelPhoneRe "Mobile", true), (labelPhoneRe "Phone", true),
   (labelPhoneRe "Tel", true), (labelPhoneRe "Téléphone", true),
   (labelPhoneRe "GSM", true), (frenchPhoneRe, true), (genericPhoneRe, false)]

/-- Pattern `A new lead(?: has arrived)\s*:\s*(.+?)\s+-` (IGNORECASE);
note the non-capturing group carries no quantifier, so " has arrived"
is mandatory. -/
def nameRe1 : RE :=
  rcat [rstrI "A new lead", rstrI " has arrived", rstar (.cls wsChar),
    rchar ':', rstar (.cls wsChar), .group 1 (rplusLazy dotChar),
    rplus (.cls wsChar), rchar '-']

/-- Pattern `The following lead has booked[^:]*:\s*(.+?)\s+-`
(IGNORECASE). -/
def nameRe2 : RE :=
  rcat [rstrI "The following lead has booked",
    rstar (.cls (fun c => c != ':')), rchar ':', rstar (.cls wsChar),
    .group 1 (rplusLazy dotChar), rplus (.cls wsChar), rchar '-']

/-- Pattern `-\s*([A-Za-z]+)\s*\(([^)]+)\)` for country and postal
code. -/
def countryRe : RE :=
  rcat [rchar '-', rstar (.cls wsChar),
    .group 1 (rplus (.cls (fun c => c.isAlpha))), rstar (.cls wsChar),
    rchar '(', .group 2 (rplus (.cls (fun c => c != ')'))), rchar ')']

/-- Pattern `Coming from\s+([^→-]+?)(?:\s+-|→)` (IGNORECASE). -/
def sourceRe : RE :=
  rcat [rstrI "Coming from", rplus (.cls wsChar),
    .group 1 (rplusLazy (.cls (fun c => c != '→' && c != '-'))),
    .alt (rcat [rplus (.cls wsChar), rchar '-']) (rchar '→')]

/-- Pattern `Sales owner\s*:\s*([^\n→]+)` (IGNORECASE). -/
def ownerRe : RE :=
  rcat [rstrI "Sales owner", rstar (.cls wsChar), rchar ':',
    rstar (.cls wsChar), .group 1 (rplus (.cls (fun c => c != '\n' && c != '→')))]

/-- Pattern `(dr\.|doc|docteur|cabinet|dentaire|dent)` matched against
the lower-cased email. -/
def hintRe : RE :=
  .group 1 (.alt (rstr "dr.") (.alt (rstr "doc") (.alt (rstr "docteur")
    (.alt (rstr "cabinet") (.alt (rstr "dentaire") (rstr "dent"))))))

/-! ### Python string helpers -/

/-- Python `str.strip()` restricted to ASCII whitespace. -/
def pyStrip (s : String) : String :=
  String.mk (((s.data.dropWhile wsChar).reverse.dropWhile wsChar).reverse)

/-- Worker for `pySplitWs`: scan the characters, accumulating the
current token (reversed). -/
def splitWsGo : List Char → List Char → List String
  | [], acc => if acc.isEmpty then [] else [String.mk acc.reverse]
  | c :: rest, acc =>
    if wsChar c then
      if acc.isEmpty then splitWsGo rest []
      else String.mk acc.reverse :: splitWsGo rest []
    else splitWsGo rest (c :: acc)

/-- Python `str.split()` with no argument: split on whitespace runs,
discarding empty pieces. -/
def pySplitWs (s : String) : List String := splitWsGo s.data []

/-- Python `str.lower()` restricted to ASCII case folding. -/
def pyLower (s : String) : String := String.mk (s.data.map Char.toLower)

/-! ## The Field Extractor (`extract_lead_data`) -/

/-- The dictionary returned by `extract_lead_data`. -/
structure LeadRecord where
  skip : Bool
  slackChannel : String
  rawMessage : String
  email : String
  phone : String
  firstname : String
  lastname : String
  fullName : String
  country : String
  postalCode : String
  source : String
  salesOwner : String
  emailHintDentist : Bool
deriving DecidableEq, Repr

/-- The source's loop over `phone_patterns`, with the `IndexError`
surfaced: first matching pattern wins; patterns whose string contains
`:` yield `group(1)`, the others yield the whole match `group(0)`,
each stripped.  When the matched pattern is asked for `group(1)` but
has no capture group (the French pattern's case), Python raises
`IndexError: no such group`; here that is an `Except.error`. -/
def phoneLoopE (message : String) : List (RE × Bool) → Except String (Option String)
  | [] => .ok none
  | (re, useG1) :: rest =>
    match reSearch re message with
    | some caps =>
      match capGet caps (if useG1 then 1 else 0) with
      | some s => .ok (some (pyStrip s))
      | none => .error "IndexError: no such group"
    | none => phoneLoopE message rest

/-- Total collapse of `phoneLoopE`, used by the total extractor below:
the `IndexError` path (where the source crashes) is flattened to an
empty capture. -/
def phoneLoop (message : String) : List (RE × Bool) → Option String
  | [] => none
  | (re, useG1) :: rest =>
    match reSearch re message with
    | some caps => some (pyStrip ((capGet caps (if useG1 then 1 else 0)).getD ""))
    | none => phoneLoop message rest

/-- The source's loop over the two name patterns: first match wins,
captured name stripped. -/
def nameFind (message : String) : Option String :=
  match reSearch nameRe1 message with
  | some caps => some (pyStrip ((capGet caps 1).getD ""))
  | none =>
    match reSearch nameRe2 message with
    | some caps => some (pyStrip ((capGet caps 1).getD ""))
    | none => none

/-- `extract_lead_data(message)`: extract lead info from a Slack
message.  This version is total: it collapses the one crash path of
the source — on a message whose phone matches only the French pattern,
the source raises `IndexError` at `match.group(1)` (the pattern string
contains `:` inside `(?:` yet has no capture group), while here the
phone field collapses to `""`.  The faithful fallible embedding is
`extract_lead_data_checked` below; on every input where the source
does not raise, the two agree. -/
def extract_lead_data (message : String) : LeadRecord :=
  let email := match reSearch emailRe message with
    | some caps => (capGet caps 1).getD ""
    | none => ""
  let phone := match reSearch slackTelRe message with
    | some caps => pyStrip ((capGet caps 2).getD "")
    | none => (phoneLoop message phonePatterns).getD ""
  let full_name := (nameFind message).getD ""
  let name_parts := if full_name == "" then [] else pySplitWs full_name
  let firstname := name_parts.headD ""
  let lastname :=
    if name_parts.length > 1 then String.intercalate " " (name_parts.drop 1) else ""
  let countryCaps := reSearch countryRe message
  let country := match countryCaps with
    | some caps => pyStrip ((capGet caps 1).getD "")
    | none => ""
  let postal_code := match countryCaps with
    | some caps => pyStrip ((capGet caps 2).getD "")
    | none => ""
  let source := match reSearch sourceRe message with
    | some caps => pyStrip ((capGet caps 1).getD "")
    | none => ""
  let sales_owner := match reSearch ownerRe message with
    | some caps => pyStrip ((capGet caps 1).getD "")
    | none => ""
  let email_hint := (reSearch hintRe (pyLower email)).isSome
  { skip := false
    slackChannel := ""
    rawMessage := message
    email := email
    phone := phone
    firstname := firstname
    lastname := lastname
    fullName := full_name
    country := country
    postalCode := postal_code
    source := source
    salesOwner := sales_owner
    emailHintDentist := email_hint }

/-- The phone-extraction step of the source with its failure surfaced:
Slack tel link first, else the `phone_patterns` loop, whose
`group(1)` call on the French pattern raises `IndexError`. -/
def phoneExtractE (message : String) : Except String String :=
  match reSearch slackTelRe message with
  | some caps => .ok (pyStrip ((capGet caps 2).getD ""))
  | none =>
    match phoneLoopE message phonePatterns with
    | .error e => .error e
    | .ok p => .ok (p.getD "")

/-- The faithful fallible embedding of `extract_lead_data`: every
field other than the phone is computed exactly as in the total
version, and the phone's `IndexError` path (reachable, e.g., on
"Call 0612345678") is propagated as an error instead of a record —
the source has no try/except between this point and the Flask
boundary. -/
def extract_lead_data_checked (message : String) : Except String LeadRecord :=
  match phoneExtractE message with
  | .error e => .error e
  | .ok phone => .ok { extract_lead_data message with phone := phone }

/-! ## Process-wide state: statistics counters and the
processed-emails ledger -/

/-- The global `stats` dictionary of the source (all counters start at
zero). -/
structure Stats where
  total_processed : Nat
  qualified : Nat
  not_qualified : Nat
  spam : Nat
  errors : Nat
  hubspot_checked : Nat
  hubspot_exists : Nat
  hubspot_created : Nat
deriving DecidableEq, Repr

/-- The initial value of `stats`. -/
def initStats : Stats :=
  { total_processed := 0, qualified := 0, not_qualified := 0, spam := 0,
    errors := 0, hubspot_checked := 0, hubspot_exists := 0, hubspot_created := 0 }

/-- The global `processed_emails` dictionary (email to timestamp, in
seconds); modelled as an association list with unique keys. -/
abbrev Ledger := List (String × Nat)

/-- Dictionary lookup `processed_emails.get(email)`. -/
def ledgerLookup (led : Ledger) (email : String) : Option Nat :=
  (led.find? (fun p => p.1 == email)).map (fun p => p.2)

/-- Dictionary store `processed_emails[email] = t` (replacing any
previous binding). -/
def ledgerInsert (led : Ledger) (email : String) (t : Nat) : Ledger :=
  (email, t) :: led.filter (fun p => !(p.1 == email))

/-- The opportunistic eviction sweep at the end of a successful run:
delete every entry strictly older than 300 seconds. -/
def ledgerSweep (led : Ledger) (now : Nat) : Ledger :=
  led.filter (fun p => !(300 < now - p.2))

/-- The duplicate-suppression step of `slack_webhook` (source lines
1078-1088): an empty email is always admitted with the ledger
untouched; an email present with age under 300 seconds is rejected;
otherwise the email is recorded at the current time and admitted.
Returns (admitted, updated ledger). -/
def dedup_gate (led : Ledger) (email : String) (now : Nat) : Bool × Ledger :=
  if email == "" then (true, led)
  else
    match ledgerLookup led email with
    | some t =>
      if now - t < 300 then (false, led) else (true, ledgerInsert led email now)
    | none => (true, ledgerInsert led email now)

/-! ## The CRM Gateway (`check_hubspot_contact`) -/

/-- The dictionary returned by `check_hubspot_contact`. -/
structure HubResult where
  contactExists : Bool
  contact_id : Option String
deriving DecidableEq, Repr

/-- An external call attempted by the handler (the trace of network
side effects, in order). -/
inductive Eff where
  | hubCheck (email : String)
  | hubUpdate (contact_id : String) (qualified : Bool)
  | aiCall
  | reaction (emoji : String)
  | dm (user : String)
deriving DecidableEq, Repr

/-- Result of `check_hubspot_contact` plus its state and effect
footprint. -/
structure HubOut where
  res : HubResult
  stats : Stats
  effs : List Eff
deriving Repr

/-- `check_hubspot_contact(email)`: with no token configured, return
exists=false / null id without any network call; otherwise perform the
search (`lookup` is the outcome of the external POST: an exception, or
the zero-or-one matching contact id).  On success the
`hubspot_checked` (and, if found, `hubspot_exists`) counters are
bumped; an exception leaves the counters alone and yields
exists=false / null id. -/
def check_hubspot_contact (token : Bool) (email : String)
    (lookup : Except String (Option String)) (st : Stats) : HubOut :=
  if !token then ⟨⟨false, none⟩, st, []⟩
  else
    match lookup with
    | .error _ => ⟨⟨false, none⟩, st, [.hubCheck email]⟩
    | .ok r =>
      let st' := { st with
        hubspot_checked := st.hubspot_checked + 1,
        hubspot_exists := st.hubspot_exists + (if r.isSome then 1 else 0) }
      ⟨⟨r.isSome, r⟩, st', [.hubCheck email]⟩

/-! ## The oracle outcome and the webhook handler -/

/-- The parsed oracle answer as used by the handler: the fields the
route reads from the JSON dictionary returned by
`call_claude_code`/`call_ai_api`.  A dictionary carrying an `error`
key is modelled as `Except.error` instead. -/
structure AIResult where
  profile_type : Option String
  score : Int
  qualified : Bool
  reasoning : String
deriving DecidableEq, Repr

/-- The `event` dictionary of a Slack event callback (absent keys are
`none`). -/
structure EventData where
  etype : Option String
  text : Option String
  channel : Option String
  ts : Option String
  bot_id : Option String
  subtype : Option String
deriving DecidableEq, Repr

/-- The webhook request body (assumed to be a JSON object). -/
structure WebhookData where
  dtype : Option String
  challenge : Option String
  event : Option EventData
deriving DecidableEq, Repr

/-- Python truthiness of an optional string: `None` and `""` are
falsy. -/
def truthyOpt (o : Option String) : Bool :=
  match o with
  | none => false
  | some s => !(s == "")

/-- The JSON response of the `/webhook` route. -/
inductive Resp where
  | challenge (c : Option String)
  | ok
  | skipped
  | error (msg : String)
deriving DecidableEq, Repr

/-- Outcome of one webhook invocation: response, updated statistics,
updated ledger, and the ordered trace of attempted external calls. -/
structure HandlerOut where
  resp : Resp
  stats : Stats
  ledger : Ledger
  effects : List Eff
deriving Repr

/-- The tail of the `/webhook` route once an event has passed every
early-exit guard (source lines 1095-1175): HubSpot check, oracle call,
error early-exit (statistics `errors` bump, no dispatch), statistics
update, conditional CRM update, acknowledgement reaction, conditional
DM, and the opportunistic ledger sweep.  `led1` is the ledger after
the duplicate-suppression step recorded the lead.  (Messages on which
the source's extraction itself raises — see
`extract_lead_data_checked` — never reach this point in the source:
the exception escapes to Flask as a 500 with no state change and no
external call.) -/
def processLead (st : Stats) (led1 : Ledger) (email : String) (now : Nat)
    (hubToken slackToken : Bool) (hubLookup : Except String (Option String))
    (ai : Except String AIResult) : HandlerOut :=
  let hub := check_hubspot_contact hubToken email hubLookup st
  let effs1 := hub.effs ++ [Eff.aiCall]
  match ai with
  | .error m =>
    ⟨.error m, { hub.stats with errors := hub.stats.errors + 1 }, led1, effs1⟩
  | .ok q =>
    let st2 := { hub.stats with
      total_processed := hub.stats.total_processed + 1,
      qualified := hub.stats.qualified + (if q.qualified then 1 else 0),
      not_qualified := hub.stats.not_qualified + (if q.qualified then 0 else 1),
      spam := hub.stats.spam + (if q.profile_type == some "SPAM" then 1 else 0) }
    let effs2 := effs1 ++
      (match hub.res.contact_id with
       | some cid =>
         if !(cid == "") && hubToken then [Eff.hubUpdate cid q.qualified] else []
       | none => [])
    let effs3 := effs2 ++
      (if slackToken then
        [Eff.reaction (if q.qualified then "white_check_mark" else "x")]
       else []) ++
      (if q.qualified && slackToken then [Eff.dm "U089Z240VD5"] else [])
    ⟨.ok, st2, ledgerSweep led1 now, effs3⟩

/-- The `/webhook` route `slack_webhook`, embedded as a pure step
function.  External inputs: `now` (the wall clock, in seconds),
`hubToken`/`slackToken` (whether the respective credentials are
configured), `hubLookup` (outcome of the HubSpot search POST) and `ai`
(outcome of the oracle call: an error dictionary, or the parsed
verdict).  Branches follow the source in order: URL verification;
event callbacks (bot/subtype filter, message-type filter, empty
message/channel filter, duplicate suppression, `lead.skip`, then
`processLead`); all other bodies answer ok. -/
def slack_webhook (st : Stats) (led : Ledger) (data : WebhookData) (now : Nat)
    (hubToken slackToken : Bool) (hubLookup : Except String (Option String))
    (ai : Except String AIResult) : HandlerOut :=
  if data.dtype == some "url_verification" then
    ⟨.challenge data.challenge, st, led, []⟩
  else if data.dtype == some "event_callback" then
    let event := data.event.getD ⟨none, none, none, none, none, none⟩
    if truthyOpt event.bot_id || truthyOpt event.subtype then ⟨.ok, st, led, []⟩
    else if !(event.etype == some "message") then ⟨.ok, st, led, []⟩
    else
      let message := event.text.getD ""
      let channel := event.channel.getD ""
      if message == "" || channel == "" then ⟨.ok, st, led, []⟩
      else
        let lead := extract_lead_data message
        let gate := dedup_gate led lead.email now
        if !gate.1 then ⟨.skipped, st, led, []⟩
        else if lead.skip then ⟨.skipped, st, gate.2, []⟩
        else processLead st gate.2 lead.email now hubToken slackToken hubLookup ai
  else ⟨.ok, st, led, []⟩

/-- One inbound request together with the external outcomes it
consumes. -/
structure EventInput where
  data : WebhookData
  now : Nat
  hubToken : Bool
  slackToken : Bool
  hubLookup : Except String (Option String)
  ai : Except String AIResult

/-- Run a sequence of webhook invocations from a given state,
threading statistics and ledger. -/
def runEvents (st : Stats) (led : Ledger) : List EventInput → Stats × Ledger
  | [] => (st, led)
  | e :: rest =>
    let out := slack_webhook st led e.data e.now e.hubToken e.slackToken e.hubLookup e.ai
    runEvents out.stats out.ledger rest

/-! ## Double-verification consensus -/

/-- A qualification verdict as described by the spec's data model
(classification, score in [0,100], qualified flag, reasoning, cited
sources, agreement flag). -/
structure Verdict where
  profile_type : String
  score : Nat
  qualified : Bool
  reasoning : String
  sources : List String
  agreement : String
deriving DecidableEq, Repr

/-- Modelled from the spec: the double-verification consensus step of
the Qualification Oracle Client is not part of `src/` (the file under
`src/` only contains the single-call engine `call_ai_api`); this
definition follows the spec's §4.3 "Double-verification mode" —
compare the two qualified booleans of two sequential oracle calls on
the identical prompt; on agreement keep the first verdict with the
floor arithmetic mean of the scores and agreement "agreed"; on
disagreement force not-qualified, classification SPAM, the minimum of
the two scores, and agreement "disagreed". -/
def double_verify (v1 v2 : Verdict) : Verdict :=
  if v1.qualified == v2.qualified then
    { v1 with score := (v1.score + v2.score) / 2, agreement := "agreed" }
  else
    { profile_type := "SPAM", score := min v1.score v2.score, qualified := false,
      reasoning := "Double verification disagreed between the two calls",
      sources := [], agreement := "disagreed" }

/-! ## Helper lemmas -/

/-- The extractor always returns `skip = false` (the dictionary
literal of the source fixes it). -/
theorem extract_skip_false (msg : String) : (extract_lead_data msg).skip = false := rfl

/-- A freshly inserted ledger entry is found with its timestamp. -/
theorem ledgerLookup_insert (led : Ledger) (e : String) (t : Nat) :
    ledgerLookup (ledgerInsert led e t) e = some t := by
  simp [ledgerLookup, ledgerInsert]

/-- `check_hubspot_contact` only touches the `hubspot_checked` and
`hubspot_exists` counters. -/
theorem check_hubspot_stats_main (token : Bool) (email : String)
    (lookup : Except String (Option String)) (st : Stats) :
    (check_hubspot_contact token email lookup st).stats.total_processed = st.total_processed
    ∧ (check_hubspot_contact token email lookup st).stats.qualified = st.qualified
    ∧ (check_hubspot_contact token email lookup st).stats.not_qualified = st.not_qualified
    ∧ (check_hubspot_contact token email lookup st).stats.spam = st.spam
    ∧ (check_hubspot_contact token email lookup st).stats.errors = st.errors := by
  unfold check_hubspot_contact
  cases token <;> cases lookup <;> simp

/-- The effect footprint of `check_hubspot_contact` is at most the
search POST itself. -/
theorem check_hubspot_effs (token : Bool) (email : String)
    (lookup : Except String (Option String)) (st : Stats) :
    (check_hubspot_contact token email lookup st).effs = []
    ∨ (check_hubspot_contact token email lookup st).effs = [Eff.hubCheck email] := by
  unfold check_hubspot_contact
  cases token <;> cases lookup <;> simp

/-- An event-callback request carrying a plain new-message event with
the given text, channel and timestamp (no bot marker, no subtype). -/
def msgEvent (msg ch ts : String) : WebhookData :=
  ⟨some "event_callback", none,
    some ⟨some "message", some msg, some ch, some ts, none, none⟩⟩

/-- A Slack event callback whose message passes every guard reaches
`processLead` on the post-gate ledger. -/
theorem slack_webhook_processed (st : Stats) (led : Ledger) (msg ch ts : String)
    (now : Nat) (hubToken slackToken : Bool)
    (hubLookup : Except String (Option String)) (ai : Except String AIResult)
    (hmsg : msg ≠ "") (hch : ch ≠ "")
    (hgate : (dedup_gate led (extract_lead_data msg).email now).1 = true) :
    slack_webhook st led (msgEvent msg ch ts) now hubToken slackToken hubLookup ai
      = processLead st (dedup_gate led (extract_lead_data msg).email now).2
          (extract_lead_data msg).email now hubToken slackToken hubLookup ai := by
  unfold slack_webhook msgEvent
  simp [truthyOpt, hmsg, hch, hgate, extract_skip_false]

/-- `processLead` never answers "skipped": the duplicate early-exit
happens strictly before it. -/
theorem processLead_resp_ne_skipped (st : Stats) (led1 : Ledger) (email : String)
    (now : Nat) (hubToken slackToken : Bool)
    (hubLookup : Except String (Option String)) (ai : Except String AIResult) :
    (processLead st led1 email now hubToken slackToken hubLookup ai).resp ≠ .skipped := by
  unfold processLead
  cases ai <;> simp

/-! ## Claim theorems -/

/-- C1: in double-verification mode the two qualified booleans are
compared; if they agree the final verdict keeps the agreed boolean,
its score is the floor arithmetic mean of the two scores, and the
agreement flag is "agreed"; if they disagree the verdict is forced
not-qualified with classification SPAM, score the minimum of the two
scores, and agreement flag "disagreed".  (The consensus engine is
modelled from the spec, as it is not part of `src/`.) -/
theorem c1_double_verification (v1 v2 : Verdict) :
    (v1.qualified = v2.qualified →
      (double_verify v1 v2).qualified = v1.qualified
      ∧ (double_verify v1 v2).score = (v1.score + v2.score) / 2
      ∧ (double_verify v1 v2).agreement = "agreed")
    ∧ (v1.qualified ≠ v2.qualified →
      (double_verify v1 v2).qualified = false
      ∧ (double_verify v1 v2).profile_type = "SPAM"
      ∧ (double_verify v1 v2).score = min v1.score v2.score
      ∧ (double_verify v1 v2).agreement = "disagreed") := by
  constructor
  · intro h
    simp [double_verify, h]
  · intro h
    simp [double_verify, h]

/-- C1 witness: two agreeing qualified verdicts with scores 80 and 60
yield qualified, score 70, agreement "agreed". -/
theorem c1_double_verification_witness :
    (double_verify ⟨"Dentiste", 80, true, "r1", [], ""⟩
        ⟨"Dentiste", 60, true, "r2", [], ""⟩).qualified = true
    ∧ (double_verify ⟨"Dentiste", 80, true, "r1", [], ""⟩
        ⟨"Dentiste", 60, true, "r2", [], ""⟩).score = 70
    ∧ (double_verify ⟨"Dentiste", 80, true, "r1", [], ""⟩
        ⟨"Dentiste", 60, true, "r2", [], ""⟩).agreement = "agreed" := by
  have h := (c1_double_verification ⟨"Dentiste", 80, true, "r1", [], ""⟩
    ⟨"Dentiste", 60, true, "r2", [], ""⟩).1 rfl
  exact ⟨h.1, h.2.1, h.2.2⟩

/-- C2: the claim says the Field Extractor never fails, but the
source can raise: on "Call 0612345678" no labelled phone pattern and
no tel link matches, the French pattern
`\b(?:0|\+33)[\d\s-]{8,}\b` does, and because its pattern string
contains a colon (inside the non-capturing `(?:`) the source selects
`match.group(1)` on a pattern with no capture group, raising
`IndexError: no such group` — so the extractor returns no record at
all there.  The faithful fallible embedding evaluates to exactly this
error on that input (the colon test at line 119 is a wrong proxy for
"has a capture group"; the claim states the intended contract). -/
theorem c2_extractor_raises_on_french_phone :
    extract_lead_data_checked "Call 0612345678"
        = .error "IndexError: no such group"
    ∧ reSearch slackTelRe "Call 0612345678" = none
    ∧ phoneLoopE "Call 0612345678" phonePatterns
        = .error "IndexError: no such group" :=
  ⟨rfl, rfl, rfl⟩

/-- The concrete notification text of the spec's extraction
scenario. -/
def c6Message : String :=
  "A new lead has arrived: Dr Jean Dupont - France (75001) jean.dupont@cabinet-dentaire.fr Mobile: 06 12 34 56 78"

/-- C6: on the spec's concrete notification text the Field Extractor
returns exactly the expected name, country, postal code, email and
phone. -/
theorem c6_scenario_extraction :
    (extract_lead_data c6Message).fullName = "Dr Jean Dupont"
    ∧ (extract_lead_data c6Message).country = "France"
    ∧ (extract_lead_data c6Message).postalCode = "75001"
    ∧ (extract_lead_data c6Message).email = "jean.dupont@cabinet-dentaire.fr"
    ∧ (extract_lead_data c6Message).phone = "06 12 34 56 78" := by
  decide

/-- C4: the duplicate suppressor's admit step, run sequentially: an
empty identifier is always admitted with the ledger untouched; a fresh
identifier is recorded at the current time and admitted; the same
identifier again within 300 seconds is rejected (and any webhook
invocation that answers "skipped" has made no external call and left
the statistics untouched); after at least 300 seconds it is admitted
again.  Hence of two sequential deliveries of the same identifier
within 5 minutes exactly one is processed, and after at least 5
minutes both are. -/
theorem c4_duplicate_suppressor (led : Ledger) (email : String) (t1 t2 : Nat)
    (st : Stats) (data : WebhookData) (now : Nat) (hubToken slackToken : Bool)
    (hubLookup : Except String (Option String)) (ai : Except String AIResult)
    (h1 : email ≠ "") (h2 : ledgerLookup led email = none) (_h3 : t1 ≤ t2) :
    dedup_gate led "" now = (true, led)
    ∧ dedup_gate led email t1 = (true, ledgerInsert led email t1)
    ∧ (t2 - t1 < 300 →
        dedup_gate (ledgerInsert led email t1) email t2
          = (false, ledgerInsert led email t1))
    ∧ (300 ≤ t2 - t1 →
        (dedup_gate (ledgerInsert led email t1) email t2).1 = true)
    ∧ ((slack_webhook st led data now hubToken slackToken hubLookup ai).resp = .skipped →
        (slack_webhook st led data now hubToken slackToken hubLookup ai).effects = []
        ∧ (slack_webhook st led data now hubToken slackToken hubLookup ai).stats = st) := by
  have h1b : (email == "") = false := by
    simp [h1]
  refine ⟨by simp [dedup_gate], ?_, ?_, ?_, ?_⟩
  · simp [dedup_gate, h1b, h2]
  · intro h
    simp [dedup_gate, h1b, ledgerLookup_insert, h]
  · intro h
    have hno : ¬ (t2 - t1 < 300) := by omega
    simp [dedup_gate, h1b, ledgerLookup_insert, hno]
  · intro h
    unfold slack_webhook at h ⊢
    repeat' split at h <;> simp_all [processLead_resp_ne_skipped]

/-- C4 witness: identifier "zz" is fresh in the one-entry ledger, is
admitted and recorded at time 0, rejected at time 100, admitted again
at time 400; the empty identifier is admitted without recording; and a
concrete duplicate delivery (email a@b.c already recorded at time 0,
redelivered at time 10) is answered "skipped" with no external calls
and unchanged statistics. -/
theorem c4_duplicate_suppressor_witness :
    dedup_gate [("a@b.c", 0)] "" 5 = (true, [("a@b.c", 0)])
    ∧ dedup_gate [("a@b.c", 0)] "zz" 0 = (true, ledgerInsert [("a@b.c", 0)] "zz" 0)
    ∧ dedup_gate (ledgerInsert [("a@b.c", 0)] "zz" 0) "zz" 100
        = (false, ledgerInsert [("a@b.c", 0)] "zz" 0)
    ∧ (dedup_gate (ledgerInsert [("a@b.c", 0)] "zz" 0) "zz" 400).1 = true
    ∧ (slack_webhook initStats [("a@b.c", 0)] (msgEvent "a@b.c" "C" "1") 10
        false false (.ok none) (.error "e")).effects = []
    ∧ (slack_webhook initStats [("a@b.c", 0)] (msgEvent "a@b.c" "C" "1") 10
        false false (.ok none) (.error "e")).stats = initStats := by
  obtain ⟨ha, hb, hc, hd, -⟩ :=
    c4_duplicate_suppressor [("a@b.c", 0)] "zz" 0 100 initStats
      (msgEvent "a@b.c" "C" "1") 10 false false (.ok none) (.error "e")
      (by decide) (by decide) (by decide)
  obtain ⟨-, -, -, hd400, -⟩ :=
    c4_duplicate_suppressor [("a@b.c", 0)] "zz" 0 400 initStats
      (msgEvent "a@b.c" "C" "1") 10 false false (.ok none) (.error "e")
      (by decide) (by decide) (by decide)
  obtain ⟨-, -, -, -, hh⟩ :=
    c4_duplicate_suppressor [("a@b.c", 0)] "zz" 0 100 initStats
      (msgEvent "a@b.c" "C" "1") 10 false false (.ok none) (.error "e")
      (by decide) (by decide) (by decide)
  exact ⟨ha, hb, hc (by decide), hd400 (by decide), hh (by decide)⟩

/-- C9: an event callback whose event carries a (truthy) bot-origin
marker or a (truthy) subtype is discarded whole: ok response,
statistics and ledger unchanged, no external call attempted (in
particular field extraction feeds nothing downstream). -/
theorem c9_bot_subtype_discarded (st : Stats) (led : Ledger) (data : WebhookData)
    (now : Nat) (hubToken slackToken : Bool)
    (hubLookup : Except String (Option String)) (ai : Except String AIResult)
    (ev : EventData)
    (h1 : data.dtype = some "event_callback") (h2 : data.event = some ev)
    (h3 : (truthyOpt ev.bot_id || truthyOpt ev.subtype) = true) :
    slack_webhook st led data now hubToken slackToken hubLookup ai
      = ⟨.ok, st, led, []⟩ := by
  unfold slack_webhook
  rw [h1, h2]
  simp [h3]

/-- C9 witness: a concrete message event carrying `bot_id = "B1"` is
discarded with ok response, unchanged state, and no external calls. -/
theorem c9_bot_subtype_discarded_witness :
    slack_webhook initStats []
        ⟨some "event_callback", none,
          some ⟨some "message", some "A new lead has arrived: Bot - X (1)",
            some "C", some "1", some "B1", none⟩⟩
        0 true true (.ok (some "c1")) (.ok ⟨some "Dentiste", 80, true, "r"⟩)
      = ⟨.ok, initStats, [], []⟩ :=
  c9_bot_subtype_discarded initStats []
    ⟨some "event_callback", none,
      some ⟨some "message", some "A new lead has arrived: Bot - X (1)",
        some "C", some "1", some "B1", none⟩⟩
    0 true true (.ok (some "c1")) (.ok ⟨some "Dentiste", 80, true, "r"⟩)
    ⟨some "message", some "A new lead has arrived: Bot - X (1)",
      some "C", some "1", some "B1", none⟩
    rfl rfl (by decide)

/-- C5: when the oracle call yields an error outcome, the handler
answers with a distinct error response (no verdict is fabricated),
bumps only the error statistics among the qualification counters, and
stops before any CRM update, chat reaction, or direct message. -/
theorem c5_oracle_error_stops_pipeline (st : Stats) (led : Ledger)
    (msg ch ts : String) (now : Nat) (hubToken slackToken : Bool)
    (hubLookup : Except String (Option String)) (m : String)
    (hmsg : msg ≠ "") (hch : ch ≠ "")
    (hgate : (dedup_gate led (extract_lead_data msg).email now).1 = true) :
    (slack_webhook st led (msgEvent msg ch ts) now hubToken slackToken hubLookup
        (.error m)).resp = .error m
    ∧ (slack_webhook st led (msgEvent msg ch ts) now hubToken slackToken hubLookup
        (.error m)).stats.errors = st.errors + 1
    ∧ (slack_webhook st led (msgEvent msg ch ts) now hubToken slackToken hubLookup
        (.error m)).stats.total_processed = st.total_processed
    ∧ (slack_webhook st led (msgEvent msg ch ts) now hubToken slackToken hubLookup
        (.error m)).stats.qualified = st.qualified
    ∧ (slack_webhook st led (msgEvent msg ch ts) now hubToken slackToken hubLookup
        (.error m)).stats.not_qualified = st.not_qualified
    ∧ (slack_webhook st led (msgEvent msg ch ts) now hubToken slackToken hubLookup
        (.error m)).stats.spam = st.spam
    ∧ (∀ c q, Eff.hubUpdate c q ∉
        (slack_webhook st led (msgEvent msg ch ts) now hubToken slackToken hubLookup
          (.error m)).effects)
    ∧ (∀ e, Eff.reaction e ∉
        (slack_webhook st led (msgEvent msg ch ts) now hubToken slackToken hubLookup
          (.error m)).effects)
    ∧ (∀ u, Eff.dm u ∉
        (slack_webhook st led (msgEvent msg ch ts) now hubToken slackToken hubLookup
          (.error m)).effects) := by
  rw [slack_webhook_processed st led msg ch ts now hubToken slackToken hubLookup
    (.error m) hmsg hch hgate]
  obtain ⟨hs1, hs2, hs3, hs4, hs5⟩ :=
    check_hubspot_stats_main hubToken (extract_lead_data msg).email hubLookup st
  rcases check_hubspot_effs hubToken (extract_lead_data msg).email hubLookup st
    with he | he <;>
    simp [processLead, he, hs1, hs2, hs3, hs4, hs5]

/-- C5 witness: a concrete well-formed event whose oracle call fails
with "boom" is answered with the error response, the errors counter
moves from 0 to 1, the qualification counters stay at 0, and no CRM
update, reaction or DM appears in the effect trace. -/
theorem c5_oracle_error_stops_pipeline_witness :
    (slack_webhook initStats [] (msgEvent "x" "C" "1") 0 false false (.ok none)
        (.error "boom")).resp = .error "boom"
    ∧ (slack_webhook initStats [] (msgEvent "x" "C" "1") 0 false false (.ok none)
        (.error "boom")).stats.errors = 1
    ∧ (slack_webhook initStats [] (msgEvent "x" "C" "1") 0 false false (.ok none)
        (.error "boom")).stats.total_processed = 0
    ∧ (∀ c q, Eff.hubUpdate c q ∉
        (slack_webhook initStats [] (msgEvent "x" "C" "1") 0 false false (.ok none)
          (.error "boom")).effects)
    ∧ (∀ e, Eff.reaction e ∉
        (slack_webhook initStats [] (msgEvent "x" "C" "1") 0 false false (.ok none)
          (.error "boom")).effects)
    ∧ (∀ u, Eff.dm u ∉
        (slack_webhook initStats [] (msgEvent "x" "C" "1") 0 false false (.ok none)
          (.error "boom")).effects) := by
  obtain ⟨w1, w2, w3, -, -, -, w7, w8, w9⟩ :=
    c5_oracle_error_stops_pipeline initStats [] "x" "C" "1" 0 false false
      (.ok none) "boom" (by decide) (by decide) (by decide)
  exact ⟨w1, w2, w3, w7, w8, w9⟩

/-- C8: with no CRM token the existence check answers exists=false
with a null contact id and makes no network call; a lookup error also
answers exists=false with a null id; and with no CRM token a
well-formed lead is still qualified by the oracle and acknowledged on
chat — CRM absence is never fatal to the event. -/
theorem c8_crm_absent_nonfatal (email : String)
    (lookup : Except String (Option String)) (st : Stats) (e : String)
    (led : Ledger) (msg ch ts : String) (now : Nat) (slackToken : Bool)
    (q : AIResult)
    (hmsg : msg ≠ "") (hch : ch ≠ "")
    (hgate : (dedup_gate led (extract_lead_data msg).email now).1 = true) :
    check_hubspot_contact false email lookup st = ⟨⟨false, none⟩, st, []⟩
    ∧ (check_hubspot_contact true email (.error e) st).res = ⟨false, none⟩
    ∧ (slack_webhook st led (msgEvent msg ch ts) now false slackToken lookup
        (.ok q)).resp = .ok
    ∧ Eff.aiCall ∈
        (slack_webhook st led (msgEvent msg ch ts) now false slackToken lookup
          (.ok q)).effects
    ∧ (slackToken = true →
        Eff.reaction (if q.qualified then "white_check_mark" else "x") ∈
          (slack_webhook st led (msgEvent msg ch ts) now false slackToken lookup
            (.ok q)).effects) := by
  rw [slack_webhook_processed st led msg ch ts now false slackToken lookup
    (.ok q) hmsg hch hgate]
  refine ⟨by simp [check_hubspot_contact], by simp [check_hubspot_contact], ?_, ?_, ?_⟩
  · simp [processLead, check_hubspot_contact]
  · simp [processLead, check_hubspot_contact]
  · intro hsl
    simp [processLead, check_hubspot_contact, hsl]

/-- C8 witness: with no CRM token and a concrete well-formed lead, the
existence check answers exists=false/null id, and the event is still
qualified (oracle call attempted) and acknowledged with the checkmark
reaction. -/
theorem c8_crm_absent_nonfatal_witness :
    check_hubspot_contact false "a@b.c" (.ok none) initStats
        = ⟨⟨false, none⟩, initStats, []⟩
    ∧ (check_hubspot_contact true "a@b.c" (.error "down") initStats).res
        = ⟨false, none⟩
    ∧ (slack_webhook initStats [] (msgEvent "x" "C" "1") 0 false true (.ok none)
        (.ok ⟨some "Dentiste", 80, true, "r"⟩)).resp = .ok
    ∧ Eff.aiCall ∈
        (slack_webhook initStats [] (msgEvent "x" "C" "1") 0 false true (.ok none)
          (.ok ⟨some "Dentiste", 80, true, "r"⟩)).effects
    ∧ Eff.reaction "white_check_mark" ∈
        (slack_webhook initStats [] (msgEvent "x" "C" "1") 0 false true (.ok none)
          (.ok ⟨some "Dentiste", 80, true, "r"⟩)).effects := by
  obtain ⟨w1, w2, w3, w4, w5⟩ :=
    c8_crm_absent_nonfatal "a@b.c" (.ok none) initStats "down" [] "x" "C" "1" 0
      true ⟨some "Dentiste", 80, true, "r"⟩ (by decide) (by decide) (by decide)
  exact ⟨w1, w2, w3, w4, w5 rfl⟩

/-- C3 counterexample: an oracle response classified "SPAM" with score
85 and `qualified: true` is dispatched as QUALIFIED — the handler
takes the qualified flag directly from the oracle's parsed output
(checkmark reaction, DM sent, `qualified` counter bumped), so no
program-side threshold or spam override forces qualified=false, contrary
to the claim. -/
theorem c3_spam_override_counterexample :
    (slack_webhook initStats [] (msgEvent "x" "C" "1") 0 false true (.ok none)
        (.ok ⟨some "SPAM", 85, true, "no web presence"⟩)).stats.qualified = 1
    ∧ (slack_webhook initStats [] (msgEvent "x" "C" "1") 0 false true (.ok none)
        (.ok ⟨some "SPAM", 85, true, "no web presence"⟩)).stats.not_qualified = 0
    ∧ (slack_webhook initStats [] (msgEvent "x" "C" "1") 0 false true (.ok none)
        (.ok ⟨some "SPAM", 85, true, "no web presence"⟩)).stats.spam = 1
    ∧ Eff.reaction "white_check_mark" ∈
        (slack_webhook initStats [] (msgEvent "x" "C" "1") 0 false true (.ok none)
          (.ok ⟨some "SPAM", 85, true, "no web presence"⟩)).effects
    ∧ Eff.dm "U089Z240VD5" ∈
        (slack_webhook initStats [] (msgEvent "x" "C" "1") 0 false true (.ok none)
          (.ok ⟨some "SPAM", 85, true, "no web presence"⟩)).effects
    ∧ (slack_webhook initStats [] (msgEvent "x" "C" "1") 0 false true (.ok none)
        (.ok ⟨some "SPAM", 85, true, "no web presence"⟩)).resp = .ok := by
  decide

/-- C3 amended: the final verdict's qualified flag is exactly the
qualified boolean of the oracle's parsed output — the program applies
no threshold policy and no spam override of its own (the threshold
rubric exists only inside the prompt text): the qualification counter,
the CRM update flag and the acknowledgement reaction all follow
`q.qualified` directly. -/
theorem c3_qualified_from_oracle (st : Stats) (led : Ledger) (msg ch ts : String)
    (now : Nat) (hubToken slackToken : Bool)
    (hubLookup : Except String (Option String)) (q : AIResult)
    (hmsg : msg ≠ "") (hch : ch ≠ "")
    (hgate : (dedup_gate led (extract_lead_data msg).email now).1 = true) :
    (slack_webhook st led (msgEvent msg ch ts) now hubToken slackToken hubLookup
        (.ok q)).resp = .ok
    ∧ (slack_webhook st led (msgEvent msg ch ts) now hubToken slackToken hubLookup
        (.ok q)).stats.qualified = st.qualified + (if q.qualified then 1 else 0)
    ∧ (slack_webhook st led (msgEvent msg ch ts) now hubToken slackToken hubLookup
        (.ok q)).stats.not_qualified
        = st.not_qualified + (if q.qualified then 0 else 1)
    ∧ (slack_webhook st led (msgEvent msg ch ts) now hubToken slackToken hubLookup
        (.ok q)).stats.total_processed = st.total_processed + 1
    ∧ (∀ cid b, Eff.hubUpdate cid b ∈
        (slack_webhook st led (msgEvent msg ch ts) now hubToken slackToken hubLookup
          (.ok q)).effects → b = q.qualified)
    ∧ (∀ e, Eff.reaction e ∈
        (slack_webhook st led (msgEvent msg ch ts) now hubToken slackToken hubLookup
          (.ok q)).effects → e = (if q.qualified then "white_check_mark" else "x"))
    ∧ (slackToken = true →
        Eff.reaction (if q.qualified then "white_check_mark" else "x") ∈
          (slack_webhook st led (msgEvent msg ch ts) now hubToken slackToken
            hubLookup (.ok q)).effects)
    ∧ (Eff.dm "U089Z240VD5" ∈
        (slack_webhook st led (msgEvent msg ch ts) now hubToken slackToken hubLookup
          (.ok q)).effects ↔ (q.qualified = true ∧ slackToken = true)) := by
  rw [slack_webhook_processed st led msg ch ts now hubToken slackToken hubLookup
    (.ok q) hmsg hch hgate]
  obtain ⟨hs1, hs2, hs3, hs4, hs5⟩ :=
    check_hubspot_stats_main hubToken (extract_lead_data msg).email hubLookup st
  rcases check_hubspot_effs hubToken (extract_lead_data msg).email hubLookup st
    with he | he <;>
    rcases hcid : (check_hubspot_contact hubToken (extract_lead_data msg).email
      hubLookup st).res.contact_id with - | cid <;>
    cases hq : q.qualified <;>
    simp [processLead, he, hcid, hs1, hs2, hs3, hs4, hs5, hq]

/-- C3 amended witness: a concrete qualified oracle verdict is
dispatched exactly as its own qualified flag dictates. -/
theorem c3_qualified_from_oracle_witness :
    (slack_webhook initStats [] (msgEvent "x" "C" "1") 0 false true (.ok none)
        (.ok ⟨some "Dentiste", 80, true, "r"⟩)).resp = .ok
    ∧ (slack_webhook initStats [] (msgEvent "x" "C" "1") 0 false true (.ok none)
        (.ok ⟨some "Dentiste", 80, true, "r"⟩)).stats.qualified = 1
    ∧ Eff.reaction "white_check_mark" ∈
        (slack_webhook initStats [] (msgEvent "x" "C" "1") 0 false true (.ok none)
          (.ok ⟨some "Dentiste", 80, true, "r"⟩)).effects := by
  obtain ⟨w1, w2, -, -, -, -, w7, -⟩ :=
    c3_qualified_from_oracle initStats [] "x" "C" "1" 0 false true (.ok none)
      ⟨some "Dentiste", 80, true, "r"⟩ (by decide) (by decide) (by decide)
  exact ⟨w1, w2, w7 rfl⟩

/-- The statistics invariant of C10: processed events split exactly
into qualified and not-qualified, and spam never exceeds the processed
count. -/
def statsInv (st : Stats) : Prop :=
  st.total_processed = st.qualified + st.not_qualified
  ∧ st.spam ≤ st.total_processed

/-- `processLead` preserves the statistics invariant. -/
theorem processLead_statsInv (st : Stats) (led1 : Ledger) (email : String)
    (now : Nat) (hubToken slackToken : Bool)
    (hubLookup : Except String (Option String)) (ai : Except String AIResult)
    (h : statsInv st) :
    statsInv (processLead st led1 email now hubToken slackToken hubLookup ai).stats := by
  obtain ⟨h1, h2, h3, h4, h5⟩ := check_hubspot_stats_main hubToken email hubLookup st
  obtain ⟨ha, hb⟩ := h
  unfold statsInv processLead
  cases ai with
  | error m => simp [h1, h2, h3, h4]; omega
  | ok q =>
    simp [h1, h2, h3, h4]
    split_ifs <;> omega

/-- Every branch of the webhook handler preserves the statistics
invariant. -/
theorem slack_webhook_statsInv (st : Stats) (led : Ledger) (data : WebhookData)
    (now : Nat) (hubToken slackToken : Bool)
    (hubLookup : Except String (Option String)) (ai : Except String AIResult)
    (h : statsInv st) :
    statsInv (slack_webhook st led data now hubToken slackToken hubLookup ai).stats := by
  unfold slack_webhook
  dsimp only
  repeat' split
  all_goals
    first
    | exact h
    | exact processLead_statsInv st _ _ now hubToken slackToken hubLookup ai h

/-- `runEvents` preserves the statistics invariant. -/
theorem runEvents_statsInv (evs : List EventInput) :
    ∀ (st : Stats) (led : Ledger), statsInv st → statsInv (runEvents st led evs).1 := by
  induction evs with
  | nil => intro st led h; exact h
  | cons e rest ih =>
    intro st led h
    simp only [runEvents]
    exact ih _ _ (slack_webhook_statsInv st led e.data e.now e.hubToken
      e.slackToken e.hubLookup e.ai h)

/-- C10 counterexample: an event whose qualification errors does not
increment only the errors counter — when a CRM token is configured and
the lookup succeeded, the `hubspot_checked` and `hubspot_exists`
counters also increment on the same event (the CRM check precedes the
oracle call). -/
theorem c10_only_errors_counterexample :
    (slack_webhook initStats [] (msgEvent "x" "C" "1") 0 true true
        (.ok (some "c1")) (.error "boom")).resp = .error "boom"
    ∧ (slack_webhook initStats [] (msgEvent "x" "C" "1") 0 true true
        (.ok (some "c1")) (.error "boom")).stats.errors = 1
    ∧ (slack_webhook initStats [] (msgEvent "x" "C" "1") 0 true true
        (.ok (some "c1")) (.error "boom")).stats.hubspot_checked = 1
    ∧ (slack_webhook initStats [] (msgEvent "x" "C" "1") 0 true true
        (.ok (some "c1")) (.error "boom")).stats.hubspot_exists = 1 := by
  decide

/-- C10 amended: starting from process start, after every sequence of
webhook events the counters satisfy
total_processed = qualified + not_qualified and spam ≤ total_processed;
and an event whose qualification yields an error outcome increments
the errors counter while leaving total_processed, qualified,
not_qualified and spam unchanged (the CRM-check counters may still
move on such an event). -/
theorem c10_stats_accounting :
    (∀ evs : List EventInput, statsInv (runEvents initStats [] evs).1)
    ∧ (∀ (st : Stats) (led : Ledger) (msg ch ts : String) (now : Nat)
        (hubToken slackToken : Bool) (hubLookup : Except String (Option String))
        (m : String), msg ≠ "" → ch ≠ "" →
        (dedup_gate led (extract_lead_data msg).email now).1 = true →
        (slack_webhook st led (msgEvent msg ch ts) now hubToken slackToken
            hubLookup (.error m)).stats.errors = st.errors + 1
        ∧ (slack_webhook st led (msgEvent msg ch ts) now hubToken slackToken
            hubLookup (.error m)).stats.total_processed = st.total_processed
        ∧ (slack_webhook st led (msgEvent msg ch ts) now hubToken slackToken
            hubLookup (.error m)).stats.qualified = st.qualified
        ∧ (slack_webhook st led (msgEvent msg ch ts) now hubToken slackToken
            hubLookup (.error m)).stats.not_qualified = st.not_qualified
        ∧ (slack_webhook st led (msgEvent msg ch ts) now hubToken slackToken
            hubLookup (.error m)).stats.spam = st.spam) := by
  constructor
  · intro evs
    exact runEvents_statsInv evs initStats [] ⟨rfl, Nat.le_refl 0⟩
  · intro st led msg ch ts now hubToken slackToken hubLookup m hmsg hch hgate
    rw [slack_webhook_processed st led msg ch ts now hubToken slackToken hubLookup
      (.error m) hmsg hch hgate]
    obtain ⟨hs1, hs2, hs3, hs4, hs5⟩ :=
      check_hubspot_stats_main hubToken (extract_lead_data msg).email hubLookup st
    simp [processLead, hs1, hs2, hs3, hs4, hs5]

/-- C10 amended witness: the invariant holds after a concrete one-event
run, and a concrete oracle-error event bumps errors from 0 to 1 while
leaving the four qualification counters at 0. -/
theorem c10_stats_accounting_witness :
    statsInv (runEvents initStats []
        [⟨msgEvent "x" "C" "1", 0, false, false, .ok none,
          .ok ⟨some "Dentiste", 80, true, "r"⟩⟩]).1
    ∧ (slack_webhook initStats [] (msgEvent "x" "C" "1") 0 false false (.ok none)
        (.error "boom")).stats.errors = 1
    ∧ (slack_webhook initStats [] (msgEvent "x" "C" "1") 0 false false (.ok none)
        (.error "boom")).stats.total_processed = 0
    ∧ (slack_webhook initStats [] (msgEvent "x" "C" "1") 0 false false (.ok none)
        (.error "boom")).stats.qualified = 0
    ∧ (slack_webhook initStats [] (msgEvent "x" "C" "1") 0 false false (.ok none)
        (.error "boom")).stats.not_qualified = 0
    ∧ (slack_webhook initStats [] (msgEvent "x" "C" "1") 0 false false (.ok none)
        (.error "boom")).stats.spam = 0 := by
  obtain ⟨w1, w2⟩ := c10_stats_accounting
  obtain ⟨e1, e2, e3, e4, e5⟩ :=
    w2 initStats [] "x" "C" "1" 0 false false (.ok none) "boom"
      (by decide) (by decide) (by decide)
  exact ⟨w1 [⟨msgEvent "x" "C" "1", 0, false, false, .ok none,
    .ok ⟨some "Dentiste", 80, true, "r"⟩⟩], e1, e2, e3, e4, e5⟩

end LeadQualifier
